import Mathlib

/-!
Verification development for the `bpkit` secrets-vault utility
(`src/bpkit/vault.py` and `src/bpkit/config.py`).

The Python source is shallowly embedded: pure string/path computations become
Lean functions on `String`; calls to external processes and the filesystem are
abstracted into an explicit `World` oracle recording what each external process
would return and which files exist; the side effects of one call to the reveal
pipeline `secrets()` are captured as an explicit trace of spawn/wait events,
the final environment, and the outcome (either a value or the error path the
Python code takes before `sys.exit(1)`).
-/

namespace BpVault

/-! ## Python string primitives used by the source -/

/-- The characters stripped by Python `str.strip()` with no argument
(ASCII whitespace as used by `bytes.isspace`): space, tab, newline,
vertical tab, form feed, carriage return. -/
def pyWhitespace : List Char :=
  [' ', '\t', '\n', Char.ofNat 11, Char.ofNat 12, '\r']

/-- Python `s.strip()`: remove leading and trailing whitespace characters. -/
def pyStrip (s : String) : String :=
  String.mk
    (((s.toList.dropWhile (fun c => c ∈ pyWhitespace)).reverse.dropWhile
      (fun c => c ∈ pyWhitespace)).reverse)

/-- Trailing-only whitespace strip. This is NOT what the source calls: the
spec's words "strip trailing whitespace/newline" describe this function, to be
compared with `pyStrip` (Python `.strip()`), which strips both ends. -/
def pyRstripWs (s : String) : String :=
  String.mk ((s.toList.reverse.dropWhile (fun c => c ∈ pyWhitespace)).reverse)

/-- Python `s.rstrip(chars)`: remove from the right end every character that
belongs to the set `cs` (NOT removal of the suffix string `chars`). -/
def pyRstripChars (s : String) (cs : List Char) : String :=
  String.mk ((s.toList.reverse.dropWhile (fun c => c ∈ cs)).reverse)

/-- True (`listContains hay pat = true`) iff `pat` occurs contiguously in `hay`. -/
def listContains : List Char → List Char → Bool
  | _, [] => true
  | [], _ :: _ => false
  | h :: t, p :: q => ((p :: q).isPrefixOf (h :: t)) || listContains t (p :: q)

/-- Substring occurrence test on strings (Python `pat in hay`). -/
def strContainsSubstr (hay pat : String) : Bool :=
  listContains hay.toList pat.toList

/-- Python `s.replace(old, new)` on character lists, for a non-empty
pattern: replace each non-overlapping occurrence, scanning left to right.
Recursion is driven by a fuel argument (initialised to the list length,
which bounds the recursion depth) so that the definition is structural.
(Python's behaviour for an empty pattern — interleaving `new` between all
characters — is not modelled; the source only ever passes `".asc"`.) -/
def listReplaceAux : Nat → List Char → List Char → List Char → List Char
  | 0, s, _, _ => s
  | _ + 1, s, [], _ => s
  | _ + 1, [], _ :: _, _ => []
  | fuel + 1, h :: t, p :: q, r =>
    if (p :: q).isPrefixOf (h :: t) then
      r ++ listReplaceAux fuel ((h :: t).drop (p :: q).length) (p :: q) r
    else
      h :: listReplaceAux fuel t (p :: q) r

/-- Python `s.replace(pat, rep)` for strings (non-empty `pat`). -/
def pyReplace (s pat rep : String) : String :=
  String.mk (listReplaceAux s.toList.length s.toList pat.toList rep.toList)

/-- A single ASCII apostrophe, written by code point. -/
def squote : String := String.singleton (Char.ofNat 39)

/-- Python `repr` of a string containing no quote characters:
the string surrounded by single quotes. -/
def pyReprStr (s : String) : String := squote ++ s ++ squote

/-- Python `str` of a list of strings: `['a', 'b']`. -/
def pyStrList (l : List String) : String :=
  "[" ++ String.intercalate ", " (l.map pyReprStr) ++ "]"

/-- The text `str(subprocess.CalledProcessError(code, cmd))` for a normal non-zero
exit code. (For a negative code Python names the killing signal instead;
that branch is kept only for totality, with the signal name elided.) -/
def calledProcessErrorStr (cmd : List String) (code : Int) : String :=
  if code < 0 then
    "Command " ++ pyReprStr (pyStrList cmd) ++ " died with signal " ++
      toString (-code) ++ "."
  else
    "Command " ++ pyReprStr (pyStrList cmd) ++ " returned non-zero exit status " ++
      toString code ++ "."

/-! ## Character classes (Python `string` module) -/

/-- Python `string.ascii_letters`: lowercase then uppercase ASCII letters. -/
def ascii_letters : List Char :=
  ['a', 'b', 'c', 'd', 'e', 'f', 'g', 'h', 'i', 'j', 'k', 'l', 'm',
   'n', 'o', 'p', 'q', 'r', 's', 't', 'u', 'v', 'w', 'x', 'y', 'z',
   'A', 'B', 'C', 'D', 'E', 'F', 'G', 'H', 'I', 'J', 'K', 'L', 'M',
   'N', 'O', 'P', 'Q', 'R', 'S', 'T', 'U', 'V', 'W', 'X', 'Y', 'Z']

/-- Python `string.digits`. -/
def string_digits : List Char :=
  ['0', '1', '2', '3', '4', '5', '6', '7', '8', '9']

/-- Python `string.punctuation`: the 32 ASCII punctuation characters
(apostrophe, backquote and braces written by code point). -/
def string_punctuation : List Char :=
  ['!', '"', '#', '$', '%', '&', Char.ofNat 39, '(', ')', '*', '+', ',',
   '-', '.', '/', ':', ';', '<', '=', '>', '?', '@', '[', '\\', ']',
   '^', '_', Char.ofNat 96, Char.ofNat 123, '|', Char.ofNat 125, '~']

/-! ## `generate_password` (vault.py lines 55-95) -/

/-- The two `ValueError`s `generate_password` can raise, tagged with the
exact message the source puts in the exception. -/
inductive PwError where
  | invalidLength (msg : String)
  | emptyCharacterPool (msg : String)
deriving DecidableEq

/-- The character pool built by `generate_password` from its three flags:
letters, then digits, then punctuation, each included iff its flag is set. -/
def passwordChars (use_letters use_digits use_symbols : Bool) : List Char :=
  (if use_letters then ascii_letters else []) ++
  (if use_digits then string_digits else []) ++
  (if use_symbols then string_punctuation else [])

/-- Embeds `generate_password(length, use_letters, use_digits, use_symbols)`.
`secrets.choice(chars)` picks one element of `chars`; the randomness is
abstracted as an oracle `pick : Nat → Nat` giving, for each position, an
arbitrary index reduced modulo the pool size. -/
def generate_password (pick : Nat → Nat) (length : Int)
    (use_letters use_digits use_symbols : Bool) : Except PwError String :=
  if length < 1 then
    .error (.invalidLength "Password length must be at least 1")
  else
    let chars := passwordChars use_letters use_digits use_symbols
    if chars = [] then
      .error (.emptyCharacterPool "At least one character set must be selected")
    else
      .ok (String.mk ((List.range length.toNat).map
        (fun i => chars.getD (pick i % chars.length) 'a')))

/-! ## `user_gpg_key` (vault.py lines 42-52) -/

/-- Error `GPGKeyNotConfiguredError`. -/
inductive GpgError where
  | keyNotConfigured
deriving DecidableEq

/-- Embeds `user_gpg_key()`. `os.getenv("BP_GPG_KEY", blueprint_config.gpg.key)`
returns the environment value when the variable is set (even to the empty
string) and the configured key otherwise; `env` is `some v` when the
variable is set to `v` and `none` when unset. -/
def user_gpg_key (env : Option String) (config_gpg_key : String) :
    Except GpgError String :=
  let user_key := env.getD config_gpg_key
  if user_key = "" then .error .keyNotConfigured else .ok user_key

/-! ## `decrypt_file` target path (vault.py lines 141-160) -/

/-- The character set of the `filename.rstrip(".asc")` call. -/
def rstrip_set : List Char := ['.', 'a', 's', 'c']

/-- The target path `SECRETS_DIR / f"{filename}.asc"` that `decrypt_file`
reads, after the source's `filename = filename.rstrip(".asc")`
normalization, with `SECRETS_DIR = <home>/.config/blueprint/secrets`. -/
def decrypt_file_target (home filename : String) : String :=
  home ++ "/.config/blueprint/secrets/" ++ pyRstripChars filename rstrip_set ++ ".asc"

/-! ## The reveal pipeline `secrets(name)` (vault.py lines 182-257) -/

/-- What one external process invocation returns: exit status and the
captured output streams. -/
structure ProcResult where
  returncode : Int
  stdout : String
  stderr : String
deriving DecidableEq

/-- The external processes the pipeline can spawn: the vault-password
retrieval command `vaultpy -d <arg>`, the decryption command
`ansible-vault view <secretFile> --vault-password-file /dev/stdin`,
and the transcoder `yj`. -/
inductive Proc where
  | vaultpy (arg : String)
  | ansibleVault (secretFile : String)
  | yj
deriving DecidableEq

/-- Observable process events of one pipeline run, in program order:
`spawn p` when the child is started (`Popen` / the start of
`check_output`), `wait p` when its termination is observed
(`communicate` returning / `check_output` returning or raising). -/
inductive Event where
  | spawn (p : Proc)
  | wait (p : Proc)
deriving DecidableEq

/-- Oracle for everything outside the process: which paths exist on disk,
what each external process would produce, and whether the transcoder
output parses as JSON. -/
structure World where
  existingFiles : List String
  vaultpyResult : ProcResult
  ansibleResult : ProcResult
  yjResult : ProcResult
  yjOutputIsJson : Bool

/-- How one call to `secrets()` ends. Every error constructor corresponds
to a `print(...)` followed by `sys.exit(1)` in the source and carries the
printed message; `jsonDecodeError` is the uncaught `json.JSONDecodeError`
from the final `json.loads`; `ok` carries the JSON text handed to
`json.loads` on success. -/
inductive SecretsOutcome where
  | vaultFileNotFound (msg : String)
  | secretFileNotFound (msg : String)
  | vaultPasswordError (msg : String)
  | ansibleVaultError (msg : String)
  | yjError (msg : String)
  | jsonDecodeError
  | ok (json : String)
deriving DecidableEq

/-- Everything observable about one call to `secrets()`: its outcome, the
ordered trace of process events, the process environment after the call,
and the vault password it computed (when the FetchPassword stage ran and
succeeded). -/
structure SecretsRun where
  outcome : SecretsOutcome
  events : List Event
  env : String → Option String
  credential : Option String

/-- Path `secret_file` as computed in `secrets()`:
`<home>/.blueprint/secrets/{name}.yaml`, or `secrets.yaml` when `name`
is empty. -/
def secret_file (home name : String) : String :=
  if name = "" then home ++ "/.blueprint/secrets/secrets.yaml"
  else home ++ "/.blueprint/secrets/" ++ name ++ ".yaml"

/-- Name `vault_file` as computed in `secrets()`: `name + ".vault"`, or
`"vault"` when `name` is empty. -/
def vault_file (name : String) : String :=
  if name = "" then "vault" else name ++ ".vault"

/-- Path `vault_file_path` as computed in `secrets()`:
`<home>/.blueprint/secrets/{vault_file}.asc`. -/
def vault_file_path (home name : String) : String :=
  home ++ "/.blueprint/secrets/" ++ vault_file name ++ ".asc"

/-- PathResolver written from the spec's words, for comparison with the
source's `secret_file` / `vault_file_path`:
`secret_file = <home>/.blueprint/secrets/{name or "secrets"}.yaml` and
`vault_file = <home>/.blueprint/secrets/{name + ".vault" if name else
"vault"}.asc`. -/
def resolveSpec (home name : String) : String × String :=
  (home ++ "/.blueprint/secrets/" ++ (if name = "" then "secrets" else name) ++ ".yaml",
   home ++ "/.blueprint/secrets/" ++
     (if name = "" then "vault" else name ++ ".vault") ++ ".asc")

/-- The environment after `os.environ["EDITOR"] = "vi"`. -/
def envUpd (env0 : String → Option String) : String → Option String :=
  fun k => if k = "EDITOR" then some "vi" else env0 k

/-- One call to `secrets(name)`, with the ambient environment `env0` and
home directory `home` explicit, and the world `w` supplying all external
behaviour. Mirrors vault.py lines 182-257 statement by statement. -/
def secrets (w : World) (env0 : String → Option String) (home name : String) :
    SecretsRun :=
  let env := envUpd env0
  let sf := secret_file home name
  let vfp := vault_file_path home name
  if vfp ∉ w.existingFiles then
    ⟨.vaultFileNotFound ("Vault file not found: " ++ vfp), [], env, none⟩
  else if sf ∉ w.existingFiles then
    ⟨.secretFileNotFound ("Secret file not found: " ++ sf), [], env, none⟩
  else
    let fetchArg := pyReplace (vault_file name) ".asc" ""
    let evs1 := [Event.spawn (.vaultpy fetchArg), Event.wait (.vaultpy fetchArg)]
    if w.vaultpyResult.returncode ≠ 0 then
      ⟨.vaultPasswordError ("Error getting vault password: " ++
          calledProcessErrorStr ["vaultpy", "-d", fetchArg] w.vaultpyResult.returncode),
        evs1, env, none⟩
    else
      let vault_password := pyStrip w.vaultpyResult.stdout
      let evs2 := evs1 ++ [Event.spawn (.ansibleVault sf), Event.spawn .yj,
        Event.wait (.ansibleVault sf)]
      if w.ansibleResult.returncode ≠ 0 then
        ⟨.ansibleVaultError ("Error from ansible-vault: " ++ w.ansibleResult.stderr),
          evs2, env, some vault_password⟩
      else
        let evs3 := evs2 ++ [Event.wait .yj]
        if w.yjResult.returncode ≠ 0 then
          ⟨.yjError ("Error from yj: " ++ w.yjResult.stderr),
            evs3, env, some vault_password⟩
        else if w.yjOutputIsJson then
          ⟨.ok w.yjResult.stdout, evs3, env, some vault_password⟩
        else
          ⟨.jsonDecodeError, evs3, env, some vault_password⟩

/-- Greatest number of child processes simultaneously alive along an
event trace (`alive` currently alive, `best` maximum so far). -/
def aliveSteps : Nat → Nat → List Event → Nat
  | _, best, [] => best
  | alive, best, Event.spawn _ :: t => aliveSteps (alive + 1) (max best (alive + 1)) t
  | alive, best, Event.wait _ :: t => aliveSteps (alive - 1) best t

/-- Maximum number of simultaneously alive children over a whole trace. -/
def maxAlive (evs : List Event) : Nat := aliveSteps 0 0 evs

/-- The complete event trace of a run of `secrets()` in which every stage
runs: every actual run's trace is a prefix of this list. -/
def fullTrace (home name : String) : List Event :=
  let fetchArg := pyReplace (vault_file name) ".asc" ""
  [Event.spawn (.vaultpy fetchArg), Event.wait (.vaultpy fetchArg),
   Event.spawn (.ansibleVault (secret_file home name)), Event.spawn .yj,
   Event.wait (.ansibleVault (secret_file home name)), Event.wait .yj]

/-! ## Concrete worlds used by closed-instance theorems -/

/-- No files exist; all external processes would succeed. -/
def c3World : World := ⟨[], ⟨0, "", ""⟩, ⟨0, "", ""⟩, ⟨0, "", ""⟩, true⟩

/-- Same as `c3World`; used for environment-effect instances. -/
def c10World : World := ⟨[], ⟨0, "", ""⟩, ⟨0, "", ""⟩, ⟨0, "", ""⟩, true⟩

/-- Both pipeline files exist; the vault-password command exits 1 with
stderr `"bad key"`. -/
def c2World : World :=
  ⟨["/h/.blueprint/secrets/vault.asc", "/h/.blueprint/secrets/secrets.yaml"],
   ⟨1, "", "bad key"⟩, ⟨0, "", ""⟩, ⟨0, "", ""⟩, true⟩

/-- Both pipeline files exist and every stage succeeds. -/
def c6World : World :=
  ⟨["/h/.blueprint/secrets/vault.asc", "/h/.blueprint/secrets/secrets.yaml"],
   ⟨0, "pw", ""⟩, ⟨0, "a: 1", ""⟩, ⟨0, "[1]", ""⟩, true⟩

/-- Both pipeline files exist, every stage succeeds, and the
vault-password command prints `" pw\n"` (note the leading space). -/
def c7World : World :=
  ⟨["/h/.blueprint/secrets/vault.asc", "/h/.blueprint/secrets/secrets.yaml"],
   ⟨0, " pw\n", ""⟩, ⟨0, "a: 1", ""⟩, ⟨0, "[1]", ""⟩, true⟩

end BpVault

namespace BpVault

theorem secrets_of_vault_missing (w : World) (env0 : String → Option String)
    (home name : String) (h : vault_file_path home name ∉ w.existingFiles) :
    secrets w env0 home name =
      ⟨.vaultFileNotFound ("Vault file not found: " ++ vault_file_path home name),
       [], envUpd env0, none⟩ := by
  unfold secrets
  rw [if_pos h]

theorem secrets_of_secret_missing (w : World) (env0 : String → Option String)
    (home name : String) (hv : vault_file_path home name ∈ w.existingFiles)
    (hs : secret_file home name ∉ w.existingFiles) :
    secrets w env0 home name =
      ⟨.secretFileNotFound ("Secret file not found: " ++ secret_file home name),
       [], envUpd env0, none⟩ := by
  unfold secrets
  rw [if_neg (not_not_intro hv), if_pos hs]

theorem secrets_of_fetch_fail (w : World) (env0 : String → Option String)
    (home name : String) (hv : vault_file_path home name ∈ w.existingFiles)
    (hs : secret_file home name ∈ w.existingFiles)
    (hf : w.vaultpyResult.returncode ≠ 0) :
    secrets w env0 home name =
      ⟨.vaultPasswordError ("Error getting vault password: " ++
          calledProcessErrorStr ["vaultpy", "-d", pyReplace (vault_file name) ".asc" ""]
            w.vaultpyResult.returncode),
       (fullTrace home name).take 2, envUpd env0, none⟩ := by
  unfold secrets
  rw [if_neg (not_not_intro hv), if_neg (not_not_intro hs), if_pos hf]
  rfl

theorem secrets_of_ansible_fail (w : World) (env0 : String → Option String)
    (home name : String) (hv : vault_file_path home name ∈ w.existingFiles)
    (hs : secret_file home name ∈ w.existingFiles)
    (hf : w.vaultpyResult.returncode = 0)
    (ha : w.ansibleResult.returncode ≠ 0) :
    secrets w env0 home name =
      ⟨.ansibleVaultError ("Error from ansible-vault: " ++ w.ansibleResult.stderr),
       (fullTrace home name).take 5, envUpd env0,
       some (pyStrip w.vaultpyResult.stdout)⟩ := by
  unfold secrets
  rw [if_neg (not_not_intro hv), if_neg (not_not_intro hs),
    if_neg (not_not_intro hf), if_pos ha]
  rfl

theorem secrets_of_yj_fail (w : World) (env0 : String → Option String)
    (home name : String) (hv : vault_file_path home name ∈ w.existingFiles)
    (hs : secret_file home name ∈ w.existingFiles)
    (hf : w.vaultpyResult.returncode = 0)
    (ha : w.ansibleResult.returncode = 0)
    (hy : w.yjResult.returncode ≠ 0) :
    secrets w env0 home name =
      ⟨.yjError ("Error from yj: " ++ w.yjResult.stderr),
       fullTrace home name, envUpd env0,
       some (pyStrip w.vaultpyResult.stdout)⟩ := by
  unfold secrets
  rw [if_neg (not_not_intro hv), if_neg (not_not_intro hs),
    if_neg (not_not_intro hf), if_neg (not_not_intro ha), if_pos hy]
  rfl

theorem secrets_of_success (w : World) (env0 : String → Option String)
    (home name : String) (hv : vault_file_path home name ∈ w.existingFiles)
    (hs : secret_file home name ∈ w.existingFiles)
    (hf : w.vaultpyResult.returncode = 0)
    (ha : w.ansibleResult.returncode = 0)
    (hy : w.yjResult.returncode = 0)
    (hj : w.yjOutputIsJson = true) :
    secrets w env0 home name =
      ⟨.ok w.yjResult.stdout, fullTrace home name, envUpd env0,
       some (pyStrip w.vaultpyResult.stdout)⟩ := by
  unfold secrets
  rw [if_neg (not_not_intro hv), if_neg (not_not_intro hs),
    if_neg (not_not_intro hf), if_neg (not_not_intro ha),
    if_neg (not_not_intro hy), if_pos hj]
  rfl

theorem secrets_of_json_bad (w : World) (env0 : String → Option String)
    (home name : String) (hv : vault_file_path home name ∈ w.existingFiles)
    (hs : secret_file home name ∈ w.existingFiles)
    (hf : w.vaultpyResult.returncode = 0)
    (ha : w.ansibleResult.returncode = 0)
    (hy : w.yjResult.returncode = 0)
    (hj : w.yjOutputIsJson = false) :
    secrets w env0 home name =
      ⟨.jsonDecodeError, fullTrace home name, envUpd env0,
       some (pyStrip w.vaultpyResult.stdout)⟩ := by
  unfold secrets
  rw [if_neg (not_not_intro hv), if_neg (not_not_intro hs),
    if_neg (not_not_intro hf), if_neg (not_not_intro ha),
    if_neg (not_not_intro hy), if_neg (by simp [hj])]
  rfl

theorem secrets_run_cases (w : World) (env0 : String → Option String)
    (home name : String) :
    (secrets w env0 home name).env = envUpd env0 ∧
    ((secrets w env0 home name).events = (fullTrace home name).take 0 ∨
     (secrets w env0 home name).events = (fullTrace home name).take 2 ∨
     (secrets w env0 home name).events = (fullTrace home name).take 5 ∨
     (secrets w env0 home name).events = fullTrace home name) := by
  by_cases hv : vault_file_path home name ∈ w.existingFiles
  · by_cases hs : secret_file home name ∈ w.existingFiles
    · by_cases hf : w.vaultpyResult.returncode = 0
      · by_cases ha : w.ansibleResult.returncode = 0
        · by_cases hy : w.yjResult.returncode = 0
          · cases hj : w.yjOutputIsJson
            · rw [secrets_of_json_bad w env0 home name hv hs hf ha hy hj]
              exact ⟨rfl, Or.inr (Or.inr (Or.inr rfl))⟩
            · rw [secrets_of_success w env0 home name hv hs hf ha hy hj]
              exact ⟨rfl, Or.inr (Or.inr (Or.inr rfl))⟩
          · rw [secrets_of_yj_fail w env0 home name hv hs hf ha hy]
            exact ⟨rfl, Or.inr (Or.inr (Or.inr rfl))⟩
        · rw [secrets_of_ansible_fail w env0 home name hv hs hf ha]
          exact ⟨rfl, Or.inr (Or.inr (Or.inl rfl))⟩
      · rw [secrets_of_fetch_fail w env0 home name hv hs hf]
        exact ⟨rfl, Or.inr (Or.inl rfl)⟩
    · rw [secrets_of_secret_missing w env0 home name hv hs]
      exact ⟨rfl, Or.inl rfl⟩
  · rw [secrets_of_vault_missing w env0 home name hv]
    exact ⟨rfl, Or.inl rfl⟩

end BpVault

namespace BpVault

/-- Claim C1: evaluation of the `decrypt_file` normalization at `"data"`:
`rstrip(".asc")` strips every trailing character of the set, so the
target is `dat.asc`, not the claimed `data.asc`. -/
theorem decrypt_file_rstrip_bug :
    decrypt_file_target "/h" "data" = "/h/.config/blueprint/secrets/dat.asc" ∧
    decrypt_file_target "/h" "data" ≠ "/h/.config/blueprint/secrets/data.asc" := by
  exact ⟨by decide, by decide⟩

/-- Claim C3: when the vault file is missing the run fails `vaultFileNotFound`
with an empty event trace, and when the vault file exists but the secret
file is missing it fails `secretFileNotFound`, again with no process
spawned. -/
theorem secrets_fail_fast (w : World) (env0 : String → Option String)
    (home name : String) :
    (vault_file_path home name ∉ w.existingFiles →
       (secrets w env0 home name).outcome =
         .vaultFileNotFound ("Vault file not found: " ++ vault_file_path home name) ∧
       (secrets w env0 home name).events = []) ∧
    (vault_file_path home name ∈ w.existingFiles →
     secret_file home name ∉ w.existingFiles →
       (secrets w env0 home name).outcome =
         .secretFileNotFound ("Secret file not found: " ++ secret_file home name) ∧
       (secrets w env0 home name).events = []) := by
  constructor
  · intro h
    rw [secrets_of_vault_missing w env0 home name h]
    exact ⟨rfl, rfl⟩
  · intro hv hs
    rw [secrets_of_secret_missing w env0 home name hv hs]
    exact ⟨rfl, rfl⟩

theorem secrets_fail_fast_witness :
    vault_file_path "/h" "" ∉ c3World.existingFiles ∧
    ((secrets c3World (fun _ => none) "/h" "").outcome =
       .vaultFileNotFound ("Vault file not found: " ++ vault_file_path "/h" "") ∧
     (secrets c3World (fun _ => none) "/h" "").events = []) :=
  ⟨by decide, (secrets_fail_fast c3World (fun _ => none) "/h" "").1 (by decide)⟩

/-- Claim C9: the environment override takes precedence over the configured
key; with the variable unset the configured key is used; and whenever
the resolved key is empty the call fails `keyNotConfigured`. -/
theorem user_gpg_key_resolution (env : Option String) (cfg : String) :
    (∀ v cfg2, env = some v → user_gpg_key env cfg = user_gpg_key (some v) cfg2) ∧
    (∀ v, env = some v → v ≠ "" → user_gpg_key env cfg = .ok v) ∧
    (env = none → cfg ≠ "" → user_gpg_key env cfg = .ok cfg) ∧
    (env.getD cfg = "" → user_gpg_key env cfg = .error .keyNotConfigured) := by
  refine ⟨?_, ?_, ?_, ?_⟩
  · intro v cfg2 h
    subst h
    rfl
  · intro v h hv
    subst h
    simp [user_gpg_key, hv]
  · intro h hc
    subst h
    simp [user_gpg_key, hc]
  · intro h
    simp [user_gpg_key, h]

theorem user_gpg_key_resolution_witness :
    (some "k" = some ("k" : String)) ∧ ("k" : String) ≠ "" ∧
    user_gpg_key (some "k") "cfg" = .ok "k" :=
  ⟨rfl, by decide,
   (user_gpg_key_resolution (some "k") "cfg").2.1 "k" rfl (by decide)⟩

/-- Claim C10: every run sets `EDITOR` to `"vi"` in the process environment —
on every path, including the earliest failures — and leaves every other
variable unchanged. -/
theorem secrets_sets_editor (w : World) (env0 : String → Option String)
    (home name : String) :
    (secrets w env0 home name).env "EDITOR" = some "vi" ∧
    ∀ k, k ≠ "EDITOR" → (secrets w env0 home name).env k = env0 k := by
  have he := (secrets_run_cases w env0 home name).1
  rw [he]
  exact ⟨by simp [envUpd], fun k hk => by simp [envUpd, hk]⟩

theorem secrets_sets_editor_witness :
    (secrets c10World (fun _ => some "x") "/h" "n").env "EDITOR" = some "vi" ∧
    (("PATH" : String) ≠ "EDITOR") ∧
    (secrets c10World (fun _ => some "x") "/h" "n").env "PATH" = some "x" :=
  ⟨(secrets_sets_editor c10World (fun _ => some "x") "/h" "n").1, by decide,
   (secrets_sets_editor c10World (fun _ => some "x") "/h" "n").2 "PATH" (by decide)⟩

end BpVault

namespace BpVault

/-- Claim C2 counterexample: with both files present and the vault-password
command exiting 1 with stderr `"bad key"`, the pipeline does fail on the
FetchPassword stage, but the message it prints is built from the command
and the exit status only — it does not contain the captured stderr. -/
theorem secrets_fetch_error_message_cex :
    c2World.vaultpyResult.returncode = 1 ∧
    c2World.vaultpyResult.stderr = "bad key" ∧
    (secrets c2World (fun _ => none) "/h" "").outcome =
      .vaultPasswordError ("Error getting vault password: " ++
        calledProcessErrorStr ["vaultpy", "-d", "vault"] 1) ∧
    strContainsSubstr ("Error getting vault password: " ++
      calledProcessErrorStr ["vaultpy", "-d", "vault"] 1) "bad key" = false := by
  exact ⟨by decide, by decide, by decide, by decide⟩

/-- Claim C2 amended: when both files exist and the FetchPassword process exits
non-zero, the run fails `vaultPasswordError` with a message naming the
command and exit status (not the stderr), and the Decrypt and Transcode
processes are never spawned (the trace is exactly the FetchPassword
spawn/wait pair). -/
theorem secrets_fetch_failure_stops_pipeline (w : World)
    (env0 : String → Option String) (home name : String)
    (hv : vault_file_path home name ∈ w.existingFiles)
    (hs : secret_file home name ∈ w.existingFiles)
    (hf : w.vaultpyResult.returncode ≠ 0) :
    (secrets w env0 home name).outcome =
      .vaultPasswordError ("Error getting vault password: " ++
        calledProcessErrorStr ["vaultpy", "-d", pyReplace (vault_file name) ".asc" ""]
          w.vaultpyResult.returncode) ∧
    (secrets w env0 home name).events =
      [Event.spawn (.vaultpy (pyReplace (vault_file name) ".asc" "")),
       Event.wait (.vaultpy (pyReplace (vault_file name) ".asc" ""))] := by
  rw [secrets_of_fetch_fail w env0 home name hv hs hf]
  exact ⟨rfl, rfl⟩

theorem secrets_fetch_failure_stops_pipeline_witness :
    vault_file_path "/h" "" ∈ c2World.existingFiles ∧
    secret_file "/h" "" ∈ c2World.existingFiles ∧
    c2World.vaultpyResult.returncode ≠ 0 ∧
    (secrets c2World (fun _ => none) "/h" "").events =
      [Event.spawn (.vaultpy (pyReplace (vault_file "") ".asc" "")),
       Event.wait (.vaultpy (pyReplace (vault_file "") ".asc" ""))] :=
  ⟨by decide, by decide, by decide,
   (secrets_fetch_failure_stops_pipeline c2World (fun _ => none) "/h" ""
     (by decide) (by decide) (by decide)).2⟩

/-- Claim C6 counterexample: in a fully successful run the Transcode (`yj`)
process is spawned directly after the Decrypt (`ansible-vault`) process
and before the latter is waited on, so two children are alive at once
(`maxAlive = 2`), contradicting "at most one external child process is
alive at any time". -/
theorem secrets_two_children_cex :
    (secrets c6World (fun _ => none) "/h" "").events =
      [Event.spawn (.vaultpy "vault"), Event.wait (.vaultpy "vault"),
       Event.spawn (.ansibleVault "/h/.blueprint/secrets/secrets.yaml"),
       Event.spawn .yj,
       Event.wait (.ansibleVault "/h/.blueprint/secrets/secrets.yaml"),
       Event.wait .yj] ∧
    maxAlive (secrets c6World (fun _ => none) "/h" "").events = 2 := by
  exact ⟨by decide, by decide⟩

/-- Claim C6 amended: every run's event trace is a prefix of the canonical
trace (FetchPassword spawn/wait, then Decrypt spawn, then Transcode
spawn, then Decrypt wait, then Transcode wait), so at most two children
are ever alive simultaneously; the FetchPassword process completes before
Decrypt spawns, but Transcode is spawned before Decrypt completes. -/
theorem secrets_process_order (w : World) (env0 : String → Option String)
    (home name : String) :
    (secrets w env0 home name).events <+: fullTrace home name ∧
    maxAlive (secrets w env0 home name).events ≤ 2 := by
  rcases (secrets_run_cases w env0 home name).2 with h | h | h | h <;> rw [h]
  · have h0 : maxAlive ((fullTrace home name).take 0) = 0 := rfl
    exact ⟨⟨(fullTrace home name).drop 0, List.take_append_drop 0 _⟩, by omega⟩
  · have h0 : maxAlive ((fullTrace home name).take 2) = 1 := rfl
    exact ⟨⟨(fullTrace home name).drop 2, List.take_append_drop 2 _⟩, by omega⟩
  · have h0 : maxAlive ((fullTrace home name).take 5) = 2 := rfl
    exact ⟨⟨(fullTrace home name).drop 5, List.take_append_drop 5 _⟩, by omega⟩
  · have h0 : maxAlive (fullTrace home name) = 2 := rfl
    exact ⟨⟨[], List.append_nil _⟩, by omega⟩

/-- Claim C7 counterexample: with the FetchPassword stdout `" pw\n"` (leading
space), the credential the code computes is `"pw"` — `.strip()` removed
the leading whitespace too — while stdout with only trailing whitespace
removed is `" pw"`. -/
theorem secrets_credential_cex :
    c7World.vaultpyResult.stdout = " pw\n" ∧
    (secrets c7World (fun _ => none) "/h" "").credential = some "pw" ∧
    pyRstripWs c7World.vaultpyResult.stdout = " pw" ∧
    (secrets c7World (fun _ => none) "/h" "").credential ≠
      some (pyRstripWs c7World.vaultpyResult.stdout) := by
  exact ⟨by decide, by decide, by decide, by decide⟩

/-- Claim C7 amended: whenever the FetchPassword stage runs and succeeds, the
credential equals its captured stdout with BOTH leading and trailing
whitespace removed (Python `.strip()`). -/
theorem secrets_credential_eq_strip (w : World) (env0 : String → Option String)
    (home name : String)
    (hv : vault_file_path home name ∈ w.existingFiles)
    (hs : secret_file home name ∈ w.existingFiles)
    (hf : w.vaultpyResult.returncode = 0) :
    (secrets w env0 home name).credential = some (pyStrip w.vaultpyResult.stdout) := by
  by_cases ha : w.ansibleResult.returncode = 0
  · by_cases hy : w.yjResult.returncode = 0
    · cases hj : w.yjOutputIsJson
      · rw [secrets_of_json_bad w env0 home name hv hs hf ha hy hj]
      · rw [secrets_of_success w env0 home name hv hs hf ha hy hj]
    · rw [secrets_of_yj_fail w env0 home name hv hs hf ha hy]
  · rw [secrets_of_ansible_fail w env0 home name hv hs hf ha]

theorem secrets_credential_eq_strip_witness :
    vault_file_path "/h" "" ∈ c7World.existingFiles ∧
    secret_file "/h" "" ∈ c7World.existingFiles ∧
    c7World.vaultpyResult.returncode = 0 ∧
    (secrets c7World (fun _ => none) "/h" "").credential =
      some (pyStrip c7World.vaultpyResult.stdout) :=
  ⟨by decide, by decide, by decide,
   secrets_credential_eq_strip c7World (fun _ => none) "/h" ""
     (by decide) (by decide) (by decide)⟩

end BpVault

namespace BpVault

theorem passwordChars_ne_nil (ul ud us : Bool)
    (h : ul = true ∨ ud = true ∨ us = true) :
    passwordChars ul ud us ≠ [] := by
  intro hcon
  rcases h with h | h | h <;> subst h <;>
    simp [passwordChars, ascii_letters, string_digits, string_punctuation] at hcon

theorem getD_mod_mem (l : List Char) (h : l ≠ []) (i : Nat) :
    l.getD (i % l.length) 'a' ∈ l := by
  have hlen : 0 < l.length := List.length_pos.2 h
  have hlt : i % l.length < l.length := Nat.mod_lt _ hlen
  rw [List.getD_eq_getElem l 'a' hlt]
  exact List.getElem_mem hlt

theorem string_digits_not_letter : ∀ c ∈ string_digits, c ∉ ascii_letters := by decide

theorem string_punctuation_not_letter : ∀ c ∈ string_punctuation, c ∉ ascii_letters := by decide

theorem ascii_letters_not_digit : ∀ c ∈ ascii_letters, c ∉ string_digits := by decide

theorem string_punctuation_not_digit : ∀ c ∈ string_punctuation, c ∉ string_digits := by decide

theorem ascii_letters_not_punct : ∀ c ∈ ascii_letters, c ∉ string_punctuation := by decide

theorem string_digits_not_punct : ∀ c ∈ string_digits, c ∉ string_punctuation := by decide

theorem mem_passwordChars (ul ud us : Bool) (c : Char)
    (hc : c ∈ passwordChars ul ud us) :
    (ul = true ∧ c ∈ ascii_letters) ∨ (ud = true ∧ c ∈ string_digits) ∨
    (us = true ∧ c ∈ string_punctuation) := by
  simp only [passwordChars, List.mem_append] at hc
  rcases hc with (h | h) | h
  · cases ul with
    | false => simp at h
    | true => exact Or.inl ⟨rfl, by simpa using h⟩
  · cases ud with
    | false => simp at h
    | true => exact Or.inr (Or.inl ⟨rfl, by simpa using h⟩)
  · cases us with
    | false => simp at h
    | true => exact Or.inr (Or.inr ⟨rfl, by simpa using h⟩)

/-- Claim C4: for every length at least 1 and at least one class flag set,
`generate_password` returns (for any random draw) a string of exactly
that length, every character of which lies in a selected class and in no
unselected class. -/
theorem generate_password_valid (pick : Nat → Nat) (length : Int)
    (ul ud us : Bool) (hlen : 1 ≤ length)
    (hflag : ul = true ∨ ud = true ∨ us = true) :
    ∃ s : String, generate_password pick length ul ud us = .ok s ∧
      s.length = length.toNat ∧
      ∀ c ∈ s.toList,
        ((ul = true ∧ c ∈ ascii_letters) ∨ (ud = true ∧ c ∈ string_digits) ∨
         (us = true ∧ c ∈ string_punctuation)) ∧
        (ul = false → c ∉ ascii_letters) ∧
        (ud = false → c ∉ string_digits) ∧
        (us = false → c ∉ string_punctuation) := by
  have hne := passwordChars_ne_nil ul ud us hflag
  have hnl : ¬ length < 1 := by omega
  have hgen : generate_password pick length ul ud us =
      .ok (String.mk ((List.range length.toNat).map
        (fun i => (passwordChars ul ud us).getD
          (pick i % (passwordChars ul ud us).length) 'a'))) := by
    simp only [generate_password]
    rw [if_neg hnl, if_neg hne]
  refine ⟨_, hgen, ?_, ?_⟩
  · simp [String.length]
  · intro c hc
    have hc2 : c ∈ (List.range length.toNat).map
        (fun i => (passwordChars ul ud us).getD
          (pick i % (passwordChars ul ud us).length) 'a') := hc
    have hmem : c ∈ passwordChars ul ud us := by
      rcases List.mem_map.1 hc2 with ⟨i, _, rfl⟩
      exact getD_mod_mem _ hne (pick i)
    have hcls := mem_passwordChars ul ud us c hmem
    refine ⟨hcls, ?_, ?_, ?_⟩
    · intro hul
      rcases hcls with ⟨h1, _⟩ | ⟨_, h2⟩ | ⟨_, h3⟩
      · rw [hul] at h1; exact absurd h1 (by decide)
      · exact string_digits_not_letter _ h2
      · exact string_punctuation_not_letter _ h3
    · intro hud
      rcases hcls with ⟨_, h1⟩ | ⟨h2, _⟩ | ⟨_, h3⟩
      · exact ascii_letters_not_digit _ h1
      · rw [hud] at h2; exact absurd h2 (by decide)
      · exact string_punctuation_not_digit _ h3
    · intro hus
      rcases hcls with ⟨_, h1⟩ | ⟨_, h2⟩ | ⟨h3, _⟩
      · exact ascii_letters_not_punct _ h1
      · exact string_digits_not_punct _ h2
      · rw [hus] at h3; exact absurd h3 (by decide)

theorem generate_password_valid_witness :
    (1 ≤ (4 : Int)) ∧
    ∃ s : String, generate_password (fun _ => 0) 4 true false false = .ok s ∧
      s.length = (4 : Int).toNat ∧
      ∀ c ∈ s.toList,
        ((true = true ∧ c ∈ ascii_letters) ∨ (false = true ∧ c ∈ string_digits) ∨
         (false = true ∧ c ∈ string_punctuation)) ∧
        (true = false → c ∉ ascii_letters) ∧
        (false = false → c ∉ string_digits) ∧
        (false = false → c ∉ string_punctuation) :=
  ⟨by decide,
   generate_password_valid (fun _ => 0) 4 true false false (by decide) (Or.inl rfl)⟩

/-- Claim C5: the length check precedes the pool check (`invalidLength` for
every length below 1, whatever the flags), the empty pool fails
`emptyCharacterPool`, and no error is raised otherwise. -/
theorem generate_password_error_cases (pick : Nat → Nat) (length : Int)
    (ul ud us : Bool) :
    (length < 1 → generate_password pick length ul ud us =
      .error (.invalidLength "Password length must be at least 1")) ∧
    (1 ≤ length → ul = false → ud = false → us = false →
      generate_password pick length ul ud us =
        .error (.emptyCharacterPool "At least one character set must be selected")) ∧
    (1 ≤ length → (ul = true ∨ ud = true ∨ us = true) →
      ∃ s, generate_password pick length ul ud us = .ok s) := by
  refine ⟨?_, ?_, ?_⟩
  · intro h
    simp only [generate_password]
    rw [if_pos h]
  · intro h1 h2 h3 h4
    subst h2; subst h3; subst h4
    simp only [generate_password]
    rw [if_neg (by omega)]
    rfl
  · intro h1 hflag
    have hne := passwordChars_ne_nil ul ud us hflag
    exact ⟨_, by simp only [generate_password]; rw [if_neg (by omega), if_neg hne]⟩

theorem generate_password_error_cases_witness :
    ((0 : Int) < 1) ∧ generate_password (fun _ => 0) 0 true true true =
      .error (.invalidLength "Password length must be at least 1") :=
  ⟨by decide, (generate_password_error_cases (fun _ => 0) 0 true true true).1 (by decide)⟩

end BpVault

namespace BpVault

theorem toList_append (s t : String) : (s ++ t).toList = s.toList ++ t.toList :=
  String.data_append s t

theorem suffix_of_append (home lit : String) (pat : List Char)
    (h : pat <:+ lit.toList) : pat <:+ (home ++ lit).toList := by
  rw [toList_append]
  exact h.trans (List.suffix_append _ _)

theorem secret_file_empty_flat (home : String) :
    secret_file home "" = home ++ "/.blueprint/secrets/secrets.yaml" := rfl

theorem vault_file_path_empty_flat (home : String) :
    vault_file_path home "" = home ++ "/.blueprint/secrets/vault.asc" := by
  show home ++ "/.blueprint/secrets/" ++ "vault" ++ ".asc" = _
  rw [String.append_assoc, String.append_assoc]
  rfl

theorem secret_file_db_flat (home : String) :
    secret_file home "db" = home ++ "/.blueprint/secrets/db.yaml" := by
  show home ++ "/.blueprint/secrets/" ++ "db" ++ ".yaml" = _
  rw [String.append_assoc, String.append_assoc]
  rfl

theorem vault_file_path_db_flat (home : String) :
    vault_file_path home "db" = home ++ "/.blueprint/secrets/db.vault.asc" := by
  show home ++ "/.blueprint/secrets/" ++ ("db" ++ ".vault") ++ ".asc" = _
  rw [String.append_assoc, String.append_assoc]
  rfl

/-- Claim C8: the source's path computation agrees with the spec's resolver for
every name, and on the two called-out instances the resulting paths end
in `secrets.yaml` / `vault.asc` (empty name) and `db.yaml` /
`db.vault.asc` (name `db`). -/
theorem secrets_path_resolution (home name : String) :
    secret_file home name = (resolveSpec home name).1 ∧
    vault_file_path home name = (resolveSpec home name).2 ∧
    ("secrets.yaml".toList <:+ (secret_file home "").toList) ∧
    ("vault.asc".toList <:+ (vault_file_path home "").toList) ∧
    ("db.yaml".toList <:+ (secret_file home "db").toList) ∧
    ("db.vault.asc".toList <:+ (vault_file_path home "db").toList) := by
  refine ⟨?_, ?_, ?_, ?_, ?_, ?_⟩
  · by_cases h : name = ""
    · subst h
      show home ++ "/.blueprint/secrets/secrets.yaml" =
        home ++ "/.blueprint/secrets/" ++ "secrets" ++ ".yaml"
      rw [String.append_assoc, String.append_assoc]
      rfl
    · simp [secret_file, resolveSpec, h]
  · by_cases h : name = ""
    · subst h
      show home ++ "/.blueprint/secrets/" ++ "vault" ++ ".asc" =
        home ++ "/.blueprint/secrets/" ++ "vault" ++ ".asc"
      rfl
    · simp [vault_file_path, vault_file, resolveSpec, h]
  · rw [secret_file_empty_flat]
    exact suffix_of_append home _ _ (by decide)
  · rw [vault_file_path_empty_flat]
    exact suffix_of_append home _ _ (by decide)
  · rw [secret_file_db_flat]
    exact suffix_of_append home _ _ (by decide)
  · rw [vault_file_path_db_flat]
    exact suffix_of_append home _ _ (by decide)

end BpVault
